import Mathlib

/-!
# license-chain-suite: verification development

Shallow embedding of the license verification and application submission
logic of the repository (a licensing web front-end over a managed
relational store), together with proofs of the specified properties.

Sources embedded:
* `src/pages/Verify.tsx` — `handleVerify`: anonymous license lookup with
  a computed validity flag;
* the application page (`Apply`) — `applicationSchema` (zod field
  constraints) and `onSubmit` (auth-gated insert with status `pending`);
* `supabase/migrations/*.sql` — the `licenses` table columns and the
  distinction between public and private columns.

Timestamps (`issue_date`, `expiry_date`, the current time) are modelled
as `Int` time values, matching the JavaScript `Date` comparisons in the
source (`expiryDate < new Date()` compares millisecond time values).
Locale date formatting (`toLocaleDateString`) is presentation only and
is kept as the underlying time value.
-/

namespace LicenseChain

/-- A row of the `licenses` table (migration
`20251126101327…sql`).  `blockchain_hash` is nullable (`TEXT`), the
other columns are `NOT NULL`.  `id`, `application_id` and `user_id` are
the private columns the verification path must not expose. -/
structure License where
  id : String
  application_id : String
  user_id : String
  license_number : String
  license_type : String
  business_name : String
  issue_date : Int
  expiry_date : Int
  status : String
  blockchain_hash : Option String
deriving DecidableEq, Repr

/-- The columns retrieved by the `select` in `handleVerify`
(`Verify.tsx` line 27): `license_number, license_type, status,
business_name, issue_date, expiry_date, blockchain_hash` — and nothing
else. -/
structure PublicRow where
  license_number : String
  license_type : String
  status : String
  business_name : String
  issue_date : Int
  expiry_date : Int
  blockchain_hash : Option String
deriving DecidableEq, Repr

/-- The projection performed by the `select` column list: only the seven
public columns of a `licenses` row are retrieved. -/
def selectPublic (l : License) : PublicRow :=
  { license_number := l.license_number
    license_type := l.license_type
    status := l.status
    business_name := l.business_name
    issue_date := l.issue_date
    expiry_date := l.expiry_date
    blockchain_hash := l.blockchain_hash }

/-- The query `.eq('license_number', licenseId).maybeSingle()`: exact
match on the unique `license_number` key, at most one row (uniqueness is
the `UNIQUE` constraint on the column), `null` when there is no match;
only the selected public columns come back. -/
def lookupLicense (db : List License) (licenseId : String) : Option PublicRow :=
  (db.find? (fun l => l.license_number = licenseId)).map selectPublic

/-- The license detail fields present in a verification result only in
the match case (`Verify.tsx` lines 52–69). -/
structure MatchDetails where
  businessName : String
  licenseType : String
  issueDate : Int
  expiryDate : Int
  status : String
  blockchainHash : String
deriving DecidableEq, Repr

/-- The object passed to `setVerificationResult`: in the no-match case
only `isValid` and `licenseNumber` are present (`details = none`); in
the match case the detail fields are present as well. -/
structure VerificationResult where
  isValid : Bool
  licenseNumber : String
  details : Option MatchDetails
deriving DecidableEq, Repr

/-- `data.blockchain_hash || 'N/A'` (`Verify.tsx` line 68): JavaScript
`||` falls through to the sentinel on any falsy value, i.e. both on a
`null` hash and on an empty-string hash. -/
def hashOrNA (h : Option String) : String :=
  match h with
  | none => "N/A"
  | some s => if s = "" then "N/A" else s

/-- The match branch of `handleVerify` (`Verify.tsx` lines 48–69):
`isExpired = expiryDate < now`, `isValid = !isExpired && status ==
'active'`, displayed status is `'Expired'` when expired and the stored
status otherwise, `licenseNumber` is the matched row's
`license_number`. -/
def buildMatchResult (now : Int) (data : PublicRow) : VerificationResult :=
  let isExpired : Bool := data.expiry_date < now
  { isValid := !isExpired && data.status == "active"
    licenseNumber := data.license_number
    details := some
      { businessName := data.business_name
        licenseType := data.license_type
        issueDate := data.issue_date
        expiryDate := data.expiry_date
        status := if isExpired then "Expired" else data.status
        blockchainHash := hashOrNA data.blockchain_hash } }

/-- The pure verification function: lookup by license number, then
either the no-match result `{isValid: false, licenseNumber: licenseId}`
(`Verify.tsx` lines 42–46) or the match result. -/
def verify (db : List License) (now : Int) (licenseId : String) : VerificationResult :=
  match lookupLicense db licenseId with
  | none => { isValid := false, licenseNumber := licenseId, details := none }
  | some data => buildMatchResult now data

/-- The outcome of the store query inside `handleVerify`: either a
store error or the (at most one) matched row. -/
abbrev QueryOutcome := Except String (Option PublicRow)

/-- The stateful shape of `handleVerify` (`Verify.tsx` lines 18–81):
the displayed result state is cleared to `null` before the query (line
21); on a query error the handler returns with the state still `null`
(lines 31–40); otherwise the state becomes the no-match or match
result.  `prev` is the previously displayed result, which the handler
never reads. -/
def handleVerify (prev : Option VerificationResult) (qr : QueryOutcome)
    (now : Int) (licenseId : String) : Option VerificationResult :=
  let cleared : Option VerificationResult := none
  match qr with
  | .error _ => cleared
  | .ok none => some { isValid := false, licenseNumber := licenseId, details := none }
  | .ok (some data) => some (buildMatchResult now data)

/-- The fields of the application form (`applicationSchema` in the
`Apply` page); the schema has no `status` field, so a client cannot
even express a status value through the form. -/
structure ApplicationFormData where
  license_type : String
  business_name : String
  registration_number : String
  business_address : String
  contact_person : String
  contact_email : String
  phone_number : String
  business_type : String
  business_description : String
deriving DecidableEq, Repr

/-- Modelled from the external zod library (not part of this
repository's source): `z.string().email()` accepts a string with one
`@`, a nonempty part on each side and a dot in the domain.  No claim
depends on the exact email grammar, only on the check existing as a
field constraint. -/
def isEmailLike (s : String) : Bool :=
  match s.data.splitOn '@' with
  | [u, d] => !u.isEmpty && !d.isEmpty && d.contains '.'
  | _ => false

/-- The zod `applicationSchema` of the `Apply` page, one entry per
constraint, producing the per-field error messages of the source.  An
empty list means the data validates. -/
def validateApplication (d : ApplicationFormData) : List (String × String) :=
  (if d.license_type.length < 1 then
    [("license_type", "Please select a license type")] else [])
  ++ (if d.business_name.length < 2 then
    [("business_name", "Business name must be at least 2 characters")] else [])
  ++ (if d.business_name.length > 200 then
    [("business_name", "Business name is too long")] else [])
  ++ (if d.registration_number.length < 3 then
    [("registration_number", "Registration number is required")] else [])
  ++ (if d.registration_number.length > 50 then
    [("registration_number", "Registration number is too long")] else [])
  ++ (if d.business_address.length < 10 then
    [("business_address", "Please provide a complete address")] else [])
  ++ (if d.business_address.length > 500 then
    [("business_address", "Address is too long")] else [])
  ++ (if d.contact_person.length < 2 then
    [("contact_person", "Contact person name is required")] else [])
  ++ (if d.contact_person.length > 100 then
    [("contact_person", "Name is too long")] else [])
  ++ (if !isEmailLike d.contact_email then
    [("contact_email", "Please provide a valid email address")] else [])
  ++ (if d.contact_email.length > 255 then
    [("contact_email", "Email is too long")] else [])
  ++ (if d.phone_number.length < 10 then
    [("phone_number", "Please provide a valid phone number")] else [])
  ++ (if d.phone_number.length > 20 then
    [("phone_number", "Phone number is too long")] else [])
  ++ (if d.business_type.length < 1 then
    [("business_type", "Please select a business type")] else [])
  ++ (if d.business_description.length < 20 then
    [("business_description", "Please provide a detailed description (at least 20 characters)")] else [])
  ++ (if d.business_description.length > 1000 then
    [("business_description", "Description is too long")] else [])

/-- A row of `license_applications` as built by the `insert` call in
`onSubmit` (the columns the client supplies; the store fills in ids and
timestamps). -/
structure ApplicationRow where
  user_id : String
  license_type : String
  business_name : String
  registration_number : String
  business_address : String
  contact_person : String
  contact_email : String
  phone_number : String
  business_type : String
  business_description : String
  status : String
deriving DecidableEq, Repr

/-- The row the `insert` call of `onSubmit` sends to the store:
`user_id` is the session user's id, the form fields are copied over,
and `status` is the literal `'pending'`. -/
def insertedRow (uid : String) (d : ApplicationFormData) : ApplicationRow :=
  { user_id := uid
    license_type := d.license_type
    business_name := d.business_name
    registration_number := d.registration_number
    business_address := d.business_address
    contact_person := d.contact_person
    contact_email := d.contact_email
    phone_number := d.phone_number
    business_type := d.business_type
    business_description := d.business_description
    status := "pending" }

/-- The possible outcomes of a submission attempt, matching the error
taxonomy of the source: the auth guard toast, per-field validation
errors, a store error passed through, or success. -/
inductive SubmitOutcome where
  | authenticationRequired
  | validationFailed (errors : List (String × String))
  | storeFailed (msg : String)
  | success
deriving DecidableEq, Repr

/-- `onSubmit` of the `Apply` page: if there is no session user the
operation is rejected before any store call; otherwise the insert is
attempted, and on a store error (modelled by the `storeError`
parameter of the external store) no row is added. -/
def onSubmit (user : Option String) (d : ApplicationFormData)
    (storeError : Option String) (store : List ApplicationRow) :
    SubmitOutcome × List ApplicationRow :=
  match user with
  | none => (.authenticationRequired, store)
  | some uid =>
    match storeError with
    | some msg => (.storeFailed msg, store)
    | none => (.success, store ++ [insertedRow uid d])

/-- The full submission pipeline `form.handleSubmit(onSubmit)` with the
zod resolver: validation runs first and `onSubmit` is invoked only on
data that validates; on validation errors the store is never
reached. -/
def submitApplication (user : Option String) (d : ApplicationFormData)
    (storeError : Option String) (store : List ApplicationRow) :
    SubmitOutcome × List ApplicationRow :=
  match validateApplication d with
  | [] => onSubmit user d storeError store
  | e :: es => (.validationFailed (e :: es), store)

/-! ### Concrete fixtures used by witnesses and counterexamples -/

/-- A stored license row: `active`, expiring at time value 100. -/
def expiresAt100 : License :=
  { id := "row-0"
    application_id := "app-0"
    user_id := "owner-0"
    license_number := "LIC-0"
    license_type := "Business License"
    business_name := "Boundary Co"
    issue_date := 0
    expiry_date := 100
    status := "active"
    blockchain_hash := some "0xdeadbeef" }

/-- The same public data as `expiresAt100` but owned by a different
user, with a different internal id and source application. -/
def expiresAt100Other : License :=
  { expiresAt100 with id := "row-9", user_id := "owner-9", application_id := "app-9" }

/-- A stored license row whose `blockchain_hash` is `NULL`. -/
def noHashLicense : License :=
  { expiresAt100 with license_number := "LIC-NH", blockchain_hash := none }

/-- A form input satisfying every constraint of `applicationSchema`. -/
def sampleForm : ApplicationFormData :=
  { license_type := "Business License"
    business_name := "Acme Trading Ltd"
    registration_number := "REG123456"
    business_address := "12 Harbor Street, Port City"
    contact_person := "Jane Doe"
    contact_email := "contact@acme.example"
    phone_number := "+1 234 567 8900"
    business_type := "Retail"
    business_description := "We import and distribute specialty coffee equipment." }

/-- `sampleForm` with a 19-character business description. -/
def shortDescriptionForm : ApplicationFormData :=
  { sampleForm with business_description := "Nineteen chars here" }

/-! ### Claims about the verification path -/

/-- C1 (counterexample): the claim says the validity flag is true iff
the stored status is `active` and the current time is strictly before
`expiry_date`.  The code computes `isExpired = expiryDate < now`, so at
the instant `now = expiry_date` an active license is still reported
valid, while `now < expiry_date` is false: the claimed equivalence
fails at this concrete input. -/
theorem verify_boundary_counterexample :
    lookupLicense [expiresAt100] "LIC-0" = some (selectPublic expiresAt100) ∧
    ¬ ((verify [expiresAt100] 100 "LIC-0").isValid = true ↔
        ((selectPublic expiresAt100).status = "active" ∧
          (100 : Int) < (selectPublic expiresAt100).expiry_date)) := by
  decide

/-- C1 (amended): for every matched license row, the computed validity
flag is true iff the stored status is `active` and the expiry date is
not strictly before the current time (`now ≤ expiry_date`); in
particular a `suspended` or `revoked` license is always invalid and an
`active` license with a strictly future expiry date is valid. -/
theorem verify_validity_amended (db : List License) (now : Int) (q : String)
    (row : PublicRow) (h : lookupLicense db q = some row) :
    ((verify db now q).isValid = true ↔
      (row.status = "active" ∧ ¬ (row.expiry_date < now))) ∧
    ((row.status = "suspended" ∨ row.status = "revoked") →
      (verify db now q).isValid = false) ∧
    ((row.status = "active" ∧ now < row.expiry_date) →
      (verify db now q).isValid = true) := by
  have hv : verify db now q = buildMatchResult now row := by
    simp [verify, h]
  rw [hv]
  simp only [buildMatchResult, Bool.and_eq_true, Bool.not_eq_true',
    decide_eq_false_iff_not, beq_iff_eq]
  refine ⟨by tauto, ?_, ?_⟩
  · rintro (hs | hs) <;> simp [hs]
  · rintro ⟨ha, hlt⟩
    simp [ha, not_lt_of_gt hlt]

/-- C1 (witness): the amended equivalence evaluated on a concrete
matched active license at a time before its expiry. -/
theorem verify_validity_amended_witness :
    ((verify [expiresAt100] 50 "LIC-0").isValid = true ↔
      ((selectPublic expiresAt100).status = "active" ∧
        ¬ ((selectPublic expiresAt100).expiry_date < 50))) ∧
    (((selectPublic expiresAt100).status = "suspended" ∨
        (selectPublic expiresAt100).status = "revoked") →
      (verify [expiresAt100] 50 "LIC-0").isValid = false) ∧
    (((selectPublic expiresAt100).status = "active" ∧
        (50 : Int) < (selectPublic expiresAt100).expiry_date) →
      (verify [expiresAt100] 50 "LIC-0").isValid = true) :=
  verify_validity_amended [expiresAt100] 50 "LIC-0" (selectPublic expiresAt100) (by decide)

/-- C2: for a matched license past expiry the displayed status is the
string `Expired` (overriding the stored status) and the validity flag
is false; for a matched license not past expiry the stored status is
returned unchanged. -/
theorem verify_expired_status (db : List License) (now : Int) (q : String)
    (row : PublicRow) (h : lookupLicense db q = some row) :
    (row.expiry_date < now →
      (verify db now q).isValid = false ∧
      (verify db now q).details.map MatchDetails.status = some "Expired") ∧
    (¬ (row.expiry_date < now) →
      (verify db now q).details.map MatchDetails.status = some row.status) := by
  have hv : verify db now q = buildMatchResult now row := by
    simp [verify, h]
  rw [hv]
  constructor
  · intro hexp
    simp [buildMatchResult, hexp]
  · intro hexp
    simp [buildMatchResult, hexp]

/-- C2 (witness): the expired branch evaluated on a concrete matched
license looked up after its expiry date. -/
theorem verify_expired_status_witness :
    (verify [expiresAt100] 200 "LIC-0").isValid = false ∧
    (verify [expiresAt100] 200 "LIC-0").details.map MatchDetails.status = some "Expired" :=
  (verify_expired_status [expiresAt100] 200 "LIC-0" (selectPublic expiresAt100)
    (by decide)).1 (by decide)

/-- C3: when no row matches the queried number, the result is exactly
`isValid = false` with the queried number echoed back and no detail
fields; and any two non-matching queries get results that agree on
everything except the echoed number, so a malformed number is not
distinguished from a well-formed number with no matching license. -/
theorem verify_no_match (db : List License) (now : Int) (q : String)
    (h : lookupLicense db q = none) :
    verify db now q = { isValid := false, licenseNumber := q, details := none } ∧
    (∀ q2, lookupLicense db q2 = none →
      (verify db now q).isValid = (verify db now q2).isValid ∧
      (verify db now q).details = (verify db now q2).details) := by
  have hv : verify db now q = { isValid := false, licenseNumber := q, details := none } := by
    simp [verify, h]
  refine ⟨hv, fun q2 h2 => ?_⟩
  have hv2 : verify db now q2 = { isValid := false, licenseNumber := q2, details := none } := by
    simp [verify, h2]
  rw [hv, hv2]
  exact ⟨rfl, rfl⟩

/-- C3 (witness): the spec's example — querying `LIC-2024-12345`
against a store that has no such license. -/
theorem verify_no_match_witness :
    verify [expiresAt100] 0 "LIC-2024-12345"
      = { isValid := false, licenseNumber := "LIC-2024-12345", details := none } :=
  (verify_no_match [expiresAt100] 0 "LIC-2024-12345" (by decide)).1

/-- Two stores that agree row-by-row on the publicly selected columns
produce the same lookup result: the lookup filters on `license_number`
(a selected column) and returns only the selected columns. -/
theorem lookupLicense_congr_public (db1 db2 : List License) (q : String)
    (h : db1.map selectPublic = db2.map selectPublic) :
    lookupLicense db1 q = lookupLicense db2 q := by
  induction db1 generalizing db2 with
  | nil =>
    cases db2 with
    | nil => rfl
    | cons b bs => simp at h
  | cons a as ih =>
    cases db2 with
    | nil => simp at h
    | cons b bs =>
      simp only [List.map_cons, List.cons.injEq] at h
      obtain ⟨hab, hrest⟩ := h
      have hnum : a.license_number = b.license_number :=
        congrArg PublicRow.license_number hab
      by_cases hq : a.license_number = q
      · have hq2 : b.license_number = q := hnum ▸ hq
        have hfa : List.find? (fun l => decide (l.license_number = q)) (a :: as)
            = some a := List.find?_cons_of_pos _ (by simp [hq])
        have hfb : List.find? (fun l => decide (l.license_number = q)) (b :: bs)
            = some b := List.find?_cons_of_pos _ (by simp [hq2])
        simp only [lookupLicense, hfa, hfb]
        simp [hab]
      · have hq2 : ¬ b.license_number = q := fun hh => hq (hnum ▸ hh)
        have hfa : List.find? (fun l => decide (l.license_number = q)) (a :: as)
            = List.find? (fun l => decide (l.license_number = q)) as :=
          List.find?_cons_of_neg _ (by simp [hq])
        have hfb : List.find? (fun l => decide (l.license_number = q)) (b :: bs)
            = List.find? (fun l => decide (l.license_number = q)) bs :=
          List.find?_cons_of_neg _ (by simp [hq2])
        simp only [lookupLicense, hfa, hfb]
        exact ih bs hrest

/-- C4: the verification result depends only on the seven publicly
selected columns — two stores whose rows agree on `license_number,
license_type, status, business_name, issue_date, expiry_date,
blockchain_hash` but may differ arbitrarily in the private columns
`id`, `user_id` and `application_id` give identical results for every
query at every time. -/
theorem verify_private_field_independence (db1 db2 : List License)
    (h : db1.map selectPublic = db2.map selectPublic) :
    ∀ (now : Int) (q : String), verify db1 now q = verify db2 now q := by
  intro now q
  unfold verify
  rw [lookupLicense_congr_public db1 db2 q h]

/-- C4 (witness): two single-row stores holding the same public data
with different owner identity, internal id and source application are
indistinguishable through verification. -/
theorem verify_private_field_independence_witness :
    verify [expiresAt100] 42 "LIC-0" = verify [expiresAt100Other] 42 "LIC-0" :=
  verify_private_field_independence [expiresAt100] [expiresAt100Other]
    (by decide) 42 "LIC-0"

/-! ### Claims about application submission -/

/-- C5: with no session user, `onSubmit` is rejected with the
authentication-required failure and the store is untouched (whether or
not the store would have errored); with a session user the insert is
attempted, a store error leaves the store unchanged, and a successful
insert appends exactly one row owned by that user. -/
theorem onSubmit_auth_gate (d : ApplicationFormData) (store : List ApplicationRow) :
    onSubmit none d none store = (.authenticationRequired, store) ∧
    (∀ msg, onSubmit none d (some msg) store = (.authenticationRequired, store)) ∧
    (∀ uid msg, onSubmit (some uid) d (some msg) store = (.storeFailed msg, store)) ∧
    (∀ uid, onSubmit (some uid) d none store
        = (.success, store ++ [insertedRow uid d]) ∧
      (insertedRow uid d).user_id = uid) := by
  refine ⟨rfl, fun msg => rfl, fun uid msg => rfl, fun uid => ⟨rfl, rfl⟩⟩

/-- C6: every row the submission pipeline sends to the store carries
status `pending`: the inserted row's status is the literal `'pending'`,
and any row present after a submission attempt was either already in
the store or has status `pending`.  The form schema has no status
field, so no client-provided status can influence this. -/
theorem submit_status_pending :
    (∀ (uid : String) (d : ApplicationFormData), (insertedRow uid d).status = "pending") ∧
    (∀ (user : Option String) (d : ApplicationFormData) (err : Option String)
        (store : List ApplicationRow) (r : ApplicationRow),
      r ∈ (submitApplication user d err store).2 → r ∈ store ∨ r.status = "pending") := by
  refine ⟨fun uid d => rfl, ?_⟩
  intro user d err store r hr
  unfold submitApplication at hr
  cases hval : validateApplication d with
  | cons e es => rw [hval] at hr; exact Or.inl hr
  | nil =>
    rw [hval] at hr
    unfold onSubmit at hr
    cases user with
    | none => exact Or.inl hr
    | some uid =>
      cases err with
      | some msg => exact Or.inl hr
      | none =>
        rcases List.mem_append.mp hr with hs | hnew
        · exact Or.inl hs
        · right
          have : r = insertedRow uid d := by simpa using hnew
          rw [this]
          rfl

/-- C6 (witness): a concrete successful submission, whose inserted row
has status `pending`. -/
theorem submit_status_pending_witness :
    (insertedRow "user-1" sampleForm).status = "pending" ∧
    (insertedRow "user-1" sampleForm ∈ ([] : List ApplicationRow) ∨
      (insertedRow "user-1" sampleForm).status = "pending") :=
  ⟨submit_status_pending.1 "user-1" sampleForm,
    submit_status_pending.2 (some "user-1") sampleForm none []
      (insertedRow "user-1" sampleForm) (by decide)⟩

/-- C7: a submission whose business description is shorter than 20
characters fails validation with the field-level error on
`business_description`, the pipeline reports the validation failure,
and the store is left untouched — `onSubmit` (and hence the insert) is
never reached. -/
theorem short_description_rejected (user : Option String) (d : ApplicationFormData)
    (err : Option String) (store : List ApplicationRow)
    (h : d.business_description.length < 20) :
    ("business_description",
        "Please provide a detailed description (at least 20 characters)")
      ∈ validateApplication d ∧
    submitApplication user d err store
      = (.validationFailed (validateApplication d), store) := by
  have hmem : ("business_description",
      "Please provide a detailed description (at least 20 characters)")
      ∈ validateApplication d := by
    unfold validateApplication
    simp [h]
  refine ⟨hmem, ?_⟩
  unfold submitApplication
  cases hval : validateApplication d with
  | nil => rw [hval] at hmem; exact absurd hmem (List.not_mem_nil _)
  | cons e es => rfl

/-- C7 (witness): the spec's example — a 19-character description is
rejected before the store is reached. -/
theorem short_description_rejected_witness :
    ("business_description",
        "Please provide a detailed description (at least 20 characters)")
      ∈ validateApplication shortDescriptionForm ∧
    submitApplication (some "user-1") shortDescriptionForm none []
      = (.validationFailed (validateApplication shortDescriptionForm), []) :=
  short_description_rejected (some "user-1") shortDescriptionForm none [] (by decide)

/-! ### Remaining verification-path claims -/

/-- C8: for a matched license whose stored `blockchain_hash` is `NULL`
or the empty string, the result's hash field is the sentinel `N/A`
(JavaScript `||` treats both as falsy); consequently a row with an
empty-string hash and the same row with an absent hash produce
identical results — the two are indistinguishable at the public
interface. -/
theorem verify_hash_sentinel (db : List License) (now : Int) (q : String)
    (row : PublicRow) (h : lookupLicense db q = some row) :
    ((row.blockchain_hash = none ∨ row.blockchain_hash = some "") →
      (verify db now q).details.map MatchDetails.blockchainHash = some "N/A") ∧
    buildMatchResult now { row with blockchain_hash := none }
      = buildMatchResult now { row with blockchain_hash := some "" } := by
  have hv : verify db now q = buildMatchResult now row := by
    simp [verify, h]
  constructor
  · rintro (hh | hh) <;> rw [hv] <;> simp [buildMatchResult, hashOrNA, hh]
  · simp [buildMatchResult, hashOrNA]

/-- C8 (witness): a concrete matched license with a `NULL` hash yields
the `N/A` sentinel. -/
theorem verify_hash_sentinel_witness :
    (verify [noHashLicense] 50 "LIC-NH").details.map MatchDetails.blockchainHash
      = some "N/A" :=
  (verify_hash_sentinel [noHashLicense] 50 "LIC-NH" (selectPublic noHashLicense)
    (by decide)).1 (Or.inl rfl)

/-- C9: in both the match and the no-match outcome, the
`licenseNumber` field of the verification result equals the queried
string exactly: the no-match branch echoes the query, and the match
branch returns the matched row's `license_number`, which equals the
query because the lookup filters on exact equality with it. -/
theorem verify_echoes_query (db : List License) (now : Int) (q : String) :
    (verify db now q).licenseNumber = q := by
  unfold verify
  cases h : lookupLicense db q with
  | none => rfl
  | some row =>
    obtain ⟨l, hl, hsel⟩ := Option.map_eq_some'.mp h
    have hnum : l.license_number = q := by simpa using List.find?_some hl
    simp only [buildMatchResult, ← hsel, selectPublic]
    exact hnum

/-- C10: the result state is cleared to `null` at the start of every
verification attempt and the handler never reads the previous state,
so on a store error the displayed state is `null` — no stale or
partial license details survive a failed lookup. -/
theorem handleVerify_error_clears_state (prev : Option VerificationResult)
    (now : Int) (q : String) :
    (∀ msg, handleVerify prev (Except.error msg) now q = none) ∧
    (∀ qr : QueryOutcome, handleVerify prev qr now q = handleVerify none qr now q) := by
  refine ⟨fun msg => rfl, fun qr => ?_⟩
  cases qr with
  | error msg => rfl
  | ok data => cases data <;> rfl

end LicenseChain
